import Mathlib

/-!
Verification of the valuation engine of the gmm-tools repository
(sports-card arbitrage backend): identifier normalizer (slugify),
two-tier record matcher, trimmed-mean estimator ("sanity average"),
verdict calculator, and the caching analyze endpoint.

Shallow embedding conventions: Python floats / Decimals are modelled as ℚ,
timestamps as ℕ, the SQL record store as a list of rows together with
per-tier availability flags (a failing store call is the `try/except`
path of the source, which returns the empty list), and the PostgreSQL
pg_trgm similarity operator as the documented trigram-overlap measure.
-/

namespace GmmTools

/-! ### src/backend/app/utils/slugify.py -/

/-- Model of Python `str.lower` restricted to ASCII: `A`-`Z` map to
`a`-`z`, every other character is unchanged. -/
def lowerChar (c : Char) : Char :=
  if 65 ≤ c.toNat ∧ c.toNat ≤ 90 then Char.ofNat (c.toNat + 32) else c

/-- The whitespace class of the regex `\s` (ASCII part):
space, tab, newline, carriage return, vertical tab, form feed. -/
def isSpaceChar (c : Char) : Bool :=
  c = ' ' || c = '\t' || c = '\n' || c = '\r' || c = '\x0b' || c = '\x0c'

/-- The character class `[a-z0-9-]` kept by `re.sub(r'[^a-z0-9-]', '', slug)`. -/
def keepChar (c : Char) : Bool :=
  (97 ≤ c.toNat && c.toNat ≤ 122) || (48 ≤ c.toNat && c.toNat ≤ 57) || c = '-'

/-- Model of `re.sub(r'\s+', '-', slug)`: every maximal run of whitespace
characters is replaced by a single hyphen. -/
def squashSpaces : List Char → List Char
  | [] => []
  | [c] => if isSpaceChar c then ['-'] else [c]
  | c :: d :: cs =>
    if isSpaceChar c then
      if isSpaceChar d then squashSpaces (d :: cs)
      else '-' :: squashSpaces (d :: cs)
    else c :: squashSpaces (d :: cs)

/-- Model of `re.sub(r'-+', '-', slug)`: runs of hyphens collapse to one. -/
def collapseHyphens : List Char → List Char
  | [] => []
  | [c] => [c]
  | c :: d :: cs =>
    if c = '-' && d = '-' then collapseHyphens (d :: cs)
    else c :: collapseHyphens (d :: cs)

/-- Model of Python `slug.strip('-')`: remove leading and trailing hyphens. -/
def stripHyphens (l : List Char) : List Char :=
  ((l.dropWhile (fun c => c = '-')).reverse.dropWhile (fun c => c = '-')).reverse

/-- `slugify` from src/backend/app/utils/slugify.py: `None` or empty input
gives `""` (the `if not text` guard); otherwise lowercase, replace
whitespace runs with a hyphen, drop characters outside `[a-z0-9-]`,
collapse repeated hyphens, and strip hyphens at both ends. -/
def slugify (t : Option String) : String :=
  match t with
  | none => ""
  | some s =>
    if s = "" then ""
    else
      String.mk (stripHyphens (collapseHyphens
        (List.filter keepChar (squashSpaces (s.data.map lowerChar)))))

/-! ### src/backend/app/services/pricing_service.py — estimator and verdict -/

/-- `calculate_sanity_average`: `None` for no prices, plain mean below three
prices, otherwise sort ascending, drop the first and last element
(`sorted_prices[1:-1]`) and average the rest.  Python's `sorted` is
modelled by insertion sort with `≤` on ℚ. -/
def calculate_sanity_average (prices : List ℚ) : Option ℚ :=
  if prices = [] then none
  else if prices.length < 3 then some (prices.sum / prices.length)
  else
    let sorted_prices := prices.insertionSort (· ≤ ·)
    let trimmed_prices := (sorted_prices.drop 1).dropLast
    some (trimmed_prices.sum / trimmed_prices.length)

/-- The verdict strings of `calculate_profit_loss` carry a formatted dollar
amount; the label plus its numeric payload is modelled as an inductive. -/
inductive Verdict where
  | insufficientData : Verdict
  | goodDeal (amount : ℚ) : Verdict
  | overpriced (amount : ℚ) : Verdict
  | fairPrice : Verdict
deriving DecidableEq, Repr

/-- `calculate_profit_loss`: absent estimate gives `(None, INSUFFICIENT DATA)`;
otherwise `profit_loss = estimated_value - listing_price` with a GOOD DEAL /
OVERPRICED (absolute loss) / FAIR PRICE verdict. -/
def calculate_profit_loss (listing_price : ℚ) (estimated_value : Option ℚ) :
    Option ℚ × Verdict :=
  match estimated_value with
  | none => (none, Verdict.insufficientData)
  | some ev =>
    let profit_loss := ev - listing_price
    if profit_loss > 0 then (some profit_loss, Verdict.goodDeal profit_loss)
    else if profit_loss < 0 then (some profit_loss, Verdict.overpriced |profit_loss|)
    else (some profit_loss, Verdict.fairPrice)

/-! ### src/backend/app/models/sales_history.py -/

/-- A row of the `sales_history` table.  `price` (SQL `Numeric(10,2)`) and
`grade` (float) are modelled as ℚ, `sold_at` as a ℕ timestamp. -/
structure SalesHistory where
  id : Nat
  player_id : String
  brand_id : String
  variation_id : String
  year : Int
  grade : ℚ
  grader : String
  price : ℚ
  sold_at : Nat
deriving DecidableEq, Repr

/-- The queryable record store, together with one availability flag per
tier query: a `true` flag is the `except Exception` path of the
corresponding query function (store unavailable on that call). -/
structure Store where
  records : List SalesHistory
  tier1Fails : Bool
  tier2Fails : Bool

/-! ### pg_trgm similarity (the `%` operator and `similarity()` used by
Tier 2).  PostgreSQL extracts, from the lowercased input, the three-grams
of each alphanumeric word padded with two leading and one trailing blank,
and `similarity(a,b)` is `|A ∩ B| / |A ∪ B|` over those trigram sets. -/

/-- Alphanumeric characters form words for trigram extraction. -/
def isWordChar (c : Char) : Bool :=
  (97 ≤ c.toNat && c.toNat ≤ 122) || (65 ≤ c.toNat && c.toNat ≤ 90) ||
    (48 ≤ c.toNat && c.toNat ≤ 57)

/-- Split a character list into its maximal alphanumeric words; `acc` is the
reversed word currently being read. -/
def wordsAux : List Char → List Char → List (List Char)
  | [], acc => if acc = [] then [] else [acc.reverse]
  | c :: cs, acc =>
    if isWordChar c then wordsAux cs (c :: acc)
    else if acc = [] then wordsAux cs [] else acc.reverse :: wordsAux cs []

/-- All consecutive triples of a character list. -/
def triples : List Char → List (Char × Char × Char)
  | a :: b :: c :: rest => (a, b, c) :: triples (b :: c :: rest)
  | _ => []

/-- Trigrams of one word: pad with two blanks in front and one behind. -/
def wordTrigrams (w : List Char) : List (Char × Char × Char) :=
  triples ([' ', ' '] ++ w ++ [' '])

/-- The trigram set of a string. -/
def trigramsOf (s : String) : Finset (Char × Char × Char) :=
  (List.flatten ((wordsAux (s.data.map lowerChar) []).map wordTrigrams)).toFinset

/-- `similarity(a, b)` of pg_trgm: trigram-set overlap ratio (0 when both
trigram sets are empty). -/
def similarity (a b : String) : ℚ :=
  let ta := trigramsOf a
  let tb := trigramsOf b
  if (ta ∪ tb).card = 0 then 0
  else ((ta ∩ tb).card : ℚ) / ((ta ∪ tb).card : ℚ)

/-- `SIMILARITY_THRESHOLD = 0.3` from pricing_service.py (the pg_trgm `%`
operator keeps pairs whose similarity exceeds this threshold). -/
def SIMILARITY_THRESHOLD : ℚ := 3 / 10

/-! ### src/backend/app/services/pricing_service.py — the two tier queries -/

/-- The WHERE clause of `query_tier1_exact_match`: equality on the three
identifiers, on `grade` when it `is not None`, and on `grader` when it is
truthy (the source tests `if grader:`, so `None` *and* the empty string
skip the grader filter). -/
def tier1_where (player_id brand_id variation_id : String)
    (grade : Option ℚ) (grader : Option String) (r : SalesHistory) : Bool :=
  r.player_id = player_id && r.brand_id = brand_id &&
    r.variation_id = variation_id &&
    (match grade with
     | none => true
     | some g => r.grade = g) &&
    (match grader with
     | none => true
     | some g => if g = "" then true else r.grader = g)

/-- `ORDER BY sold_at DESC` of Tier 1: most recent sale first. -/
def recency_ge (a b : SalesHistory) : Prop := b.sold_at ≤ a.sold_at

instance : DecidableRel recency_ge := fun a b => Nat.decLe b.sold_at a.sold_at

instance : IsTotal SalesHistory recency_ge :=
  ⟨fun a b => Nat.le_total b.sold_at a.sold_at⟩

instance : IsTrans SalesHistory recency_ge :=
  ⟨fun _ _ _ h1 h2 => Nat.le_trans h2 h1⟩

/-- `query_tier1_exact_match`: on a store failure the `except` branch
returns `[]`; otherwise filter by `tier1_where`, order by recency and cap
at `limit`.  The SQL `ORDER BY ... LIMIT` is modelled by a sort followed
by `take`. -/
def query_tier1_exact_match (db : Store) (player_id brand_id variation_id : String)
    (grade : Option ℚ) (grader : Option String) (limit : Nat) : List SalesHistory :=
  if db.tier1Fails then []
  else
    List.take limit
      (List.insertionSort recency_ge
        (db.records.filter (tier1_where player_id brand_id variation_id grade grader)))

/-- The WHERE clause of `query_tier2_fuzzy_match`: `player_id % :player_id`
(similarity strictly above the threshold), equality on `brand_id`, and on
`year` when it `is not None`.  Grade and grader are not filtered. -/
def tier2_where (player_id brand_id : String) (year : Option Int)
    (r : SalesHistory) : Bool :=
  decide (SIMILARITY_THRESHOLD < similarity r.player_id player_id) &&
    r.brand_id = brand_id &&
    (match year with
     | none => true
     | some y => r.year = y)

/-- `ORDER BY similarity(player_id, :player_id) DESC, sold_at DESC` of
Tier 2: higher similarity first, recency breaks ties. -/
def tier2_order (player_id : String) (a b : SalesHistory) : Prop :=
  similarity b.player_id player_id < similarity a.player_id player_id ∨
    (similarity a.player_id player_id = similarity b.player_id player_id ∧
      b.sold_at ≤ a.sold_at)

instance (pid : String) : DecidableRel (tier2_order pid) := fun _ _ =>
  instDecidableOr

instance (pid : String) : IsTotal SalesHistory (tier2_order pid) := by
  constructor
  intro a b
  rcases lt_trichotomy (similarity a.player_id pid) (similarity b.player_id pid) with h | h | h
  · exact Or.inr (Or.inl h)
  · rcases Nat.le_total b.sold_at a.sold_at with h2 | h2
    · exact Or.inl (Or.inr ⟨h, h2⟩)
    · exact Or.inr (Or.inr ⟨h.symm, h2⟩)
  · exact Or.inl (Or.inl h)

instance (pid : String) : IsTrans SalesHistory (tier2_order pid) := by
  constructor
  intro a b c hab hbc
  rcases hab with h1 | ⟨h1, h1t⟩ <;> rcases hbc with h2 | ⟨h2, h2t⟩
  · exact Or.inl (h2.trans h1)
  · exact Or.inl (h2 ▸ h1)
  · exact Or.inl (h1 ▸ h2)
  · exact Or.inr ⟨h2 ▸ h1, h2t.trans h1t⟩

/-- `query_tier2_fuzzy_match`: on a store failure the `except` branch
returns `[]`; otherwise filter by `tier2_where`, order by descending
similarity then recency, and cap at `limit`. -/
def query_tier2_fuzzy_match (db : Store) (player_id brand_id : String)
    (year : Option Int) (limit : Nat) : List SalesHistory :=
  if db.tier2Fails then []
  else
    List.take limit
      (List.insertionSort (tier2_order player_id)
        (db.records.filter (tier2_where player_id brand_id year)))

/-! ### pricing_service.py — orchestrator -/

/-- `PricingResult` of pricing_service.py; `sales_data` keeps the matched
rows themselves (`to_dict` is a plain serialization of a row). -/
structure PricingResult where
  estimated_value : Option ℚ
  match_tier : String
  sales_count : Nat
  sales_data : List SalesHistory
deriving DecidableEq, Repr

/-- `get_estimated_value`: run Tier 1; if it returned rows the tier is
`"exact"`, otherwise run Tier 2 (`"fuzzy"` when non-empty, `"none"` when
empty too); then average the matched prices.  Both queries use the default
`limit = 10`. -/
def get_estimated_value (db : Store) (player_id brand_id variation_id : String)
    (year : Option Int) (grade : Option ℚ) (grader : Option String) : PricingResult :=
  let t1 := query_tier1_exact_match db player_id brand_id variation_id grade grader 10
  let st :=
    if t1 ≠ [] then (t1, "exact")
    else
      let t2 := query_tier2_fuzzy_match db player_id brand_id year 10
      if t2 ≠ [] then (t2, "fuzzy") else (t2, "none")
  let prices := st.1.map (fun s => s.price)
  ⟨calculate_sanity_average prices, st.2, st.1.length, st.1⟩

/-! ### src/backend/app/api/analyze.py -/

/-- The fields of `ParsedCardData` (openai_service.py) consumed by the
analyze pipeline; `player_name` and `brand` are required strings, the
rest optional. -/
structure ParsedCardData where
  player_name : String
  brand : String
  variation : Option String
  year : Option Int
  grade : Option ℚ
  grading_company : Option String
deriving DecidableEq, Repr

/-- A Redis cache entry written by `analyze_listing` (`cache_data`): parsed
data, estimated value, match tier and sales count — nothing else. -/
structure CacheEntry where
  parsed_data : ParsedCardData
  estimated_value : Option ℚ
  match_tier : String
  sales_count : Nat
deriving DecidableEq, Repr

/-- The `AnalyzeResponse` body. -/
structure AnalyzeResponse where
  parsed_data : ParsedCardData
  estimated_value : Option ℚ
  profit_loss : Option ℚ
  verdict : Verdict
  match_tier : String
  sales_count : Nat
  cached : Bool
deriving DecidableEq, Repr

/-- `analyze_listing` for one title: `cache` is the entry currently stored
under this title's key (`None` = miss), `parsed` the title-parsing
collaborator's output for the title.  Returns the response and the cache
entry stored under the key afterwards.  On a hit, profit/loss is
recomputed from the request's `listing_price` and the cached valuation
fields are returned unchanged; on a miss the pipeline runs and
`cache_data` (without profit/loss or verdict) is written. -/
def analyze_listing (cache : Option CacheEntry) (parsed : ParsedCardData)
    (db : Store) (listing_price : ℚ) : AnalyzeResponse × Option CacheEntry :=
  match cache with
  | some entry =>
    let pv := calculate_profit_loss listing_price entry.estimated_value
    (⟨entry.parsed_data, entry.estimated_value, pv.1, pv.2,
      entry.match_tier, entry.sales_count, true⟩, some entry)
  | none =>
    let player_id := slugify (some parsed.player_name)
    let brand_id := slugify (some parsed.brand)
    let variation_id := slugify (some
      (match parsed.variation with
       | none => "Base"
       | some v => if v = "" then "Base" else v))
    let pr := get_estimated_value db player_id brand_id variation_id
      parsed.year parsed.grade parsed.grading_company
    let cache_data : CacheEntry :=
      ⟨parsed, pr.estimated_value, pr.match_tier, pr.sales_count⟩
    let pv := calculate_profit_loss listing_price pr.estimated_value
    (⟨parsed, pr.estimated_value, pv.1, pv.2, pr.match_tier, pr.sales_count, false⟩,
      some cache_data)

/-! ### Specification-side predicates and concrete fixtures used in the
theorems below. -/

/-- The adjacency relation "these two characters are not both hyphens";
a slug with no repeated hyphens satisfies `Chain' noDoubleHyphen`. -/
def noDoubleHyphen (a b : Char) : Prop := ¬(a = '-' ∧ b = '-')

instance : DecidableRel noDoubleHyphen := fun _ _ => instDecidableNot

/-- The record predicate of the Tier-1 claim as amended: exact equality on
the three identifiers, on the grade when one was supplied, and on the
grading authority when a *non-empty* one was supplied (the source treats
an empty-string authority as not supplied). -/
def tier1_claim_pred (p b v : String) (g : Option ℚ) (gr : Option String)
    (r : SalesHistory) : Prop :=
  r.player_id = p ∧ r.brand_id = b ∧ r.variation_id = v ∧
    (∀ gv, g = some gv → r.grade = gv) ∧
    (∀ gs, gr = some gs → gs ≠ "" → r.grader = gs)

/-- The record predicate of the Tier-2 claim: exact equality on the brand
identifier, trigram similarity of the player identifiers strictly above
the 0.3 threshold, and exact equality on the year when one was supplied. -/
def tier2_claim_pred (p b : String) (year : Option Int) (r : SalesHistory) : Prop :=
  r.brand_id = b ∧ SIMILARITY_THRESHOLD < similarity r.player_id p ∧
    (∀ y, year = some y → r.year = y)

end GmmTools

namespace GmmTools

/-! ### Lemmas about the normalizer (slugify) -/

theorem lowerChar_keep {c : Char} (h : keepChar c = true) : lowerChar c = c := by
  have hn : ¬(65 ≤ c.toNat ∧ c.toNat ≤ 90) := by
    rw [keepChar] at h
    simp only [Bool.or_eq_true, Bool.and_eq_true, decide_eq_true_eq] at h
    rcases h with (⟨h1, h2⟩ | ⟨h1, h2⟩) | h1
    · omega
    · omega
    · subst h1; decide
  rw [lowerChar, if_neg hn]

theorem keep_not_space {c : Char} (h : keepChar c = true) : isSpaceChar c = false := by
  rw [isSpaceChar]
  simp only [Bool.or_eq_false_iff, decide_eq_false_iff_not]
  refine ⟨⟨⟨⟨⟨?_, ?_⟩, ?_⟩, ?_⟩, ?_⟩, ?_⟩ <;> rintro rfl <;> revert h <;> decide

theorem squashSpaces_eq_self : ∀ {l : List Char},
    (∀ c ∈ l, isSpaceChar c = false) → squashSpaces l = l := by
  intro l
  induction l with
  | nil => intro _; rfl
  | cons c rest ih =>
    intro h
    have hc : isSpaceChar c = false := h c (List.mem_cons_self c rest)
    cases rest with
    | nil => simp [squashSpaces, hc]
    | cons d cs =>
      have ih2 : squashSpaces (d :: cs) = d :: cs :=
        ih (fun x hx => h x (List.mem_cons_of_mem c hx))
      simp [squashSpaces, hc, ih2]

theorem collapseHyphens_head? : ∀ (cs : List Char) (c : Char),
    (collapseHyphens (c :: cs)).head? = some c := by
  intro cs
  induction cs with
  | nil => intro c; rfl
  | cons d cs ih =>
    intro c
    by_cases hc : c = '-' ∧ d = '-'
    · obtain ⟨rfl, rfl⟩ := hc
      simp only [collapseHyphens]
      rw [if_pos (by simp)]
      exact ih '-'
    · simp only [collapseHyphens]
      rw [if_neg (by simpa using hc)]
      rfl

theorem collapseHyphens_chain : ∀ l : List Char,
    (collapseHyphens l).Chain' noDoubleHyphen := by
  intro l
  induction l with
  | nil => simp [collapseHyphens]
  | cons c rest ih =>
    cases rest with
    | nil => simp [collapseHyphens, List.chain'_singleton]
    | cons d cs =>
      by_cases hc : c = '-' ∧ d = '-'
      · simp only [collapseHyphens]
        rw [if_pos (by simp [hc.1, hc.2])]
        exact ih
      · simp only [collapseHyphens]
        rw [if_neg (by simpa using hc)]
        rw [List.chain'_cons']
        refine ⟨?_, ih⟩
        intro y hy
        rw [collapseHyphens_head?] at hy
        cases hy
        exact hc

theorem collapseHyphens_sublist : ∀ l : List Char,
    (collapseHyphens l).Sublist l := by
  intro l
  induction l with
  | nil => exact List.Sublist.refl []
  | cons c rest ih =>
    cases rest with
    | nil => exact List.Sublist.refl [c]
    | cons d cs =>
      by_cases hc : c = '-' ∧ d = '-'
      · simp only [collapseHyphens]
        rw [if_pos (by simp [hc.1, hc.2])]
        exact ih.trans (List.sublist_cons_self c (d :: cs))
      · simp only [collapseHyphens]
        rw [if_neg (by simpa using hc)]
        exact List.Sublist.cons₂ c ih

theorem collapseHyphens_eq_self : ∀ {l : List Char},
    l.Chain' noDoubleHyphen → collapseHyphens l = l := by
  intro l
  induction l with
  | nil => intro _; rfl
  | cons c rest ih =>
    intro h
    cases rest with
    | nil => rfl
    | cons d cs =>
      rw [List.chain'_cons] at h
      simp only [collapseHyphens]
      rw [if_neg (by simpa [noDoubleHyphen] using h.1)]
      rw [ih h.2]

theorem dropWhile_head_false {p : Char → Bool} : ∀ {l : List Char} {a : Char},
    (l.dropWhile p).head? = some a → p a = false := by
  intro l
  induction l with
  | nil => intro a h; simp [List.dropWhile] at h
  | cons c cs ih =>
    intro a h
    by_cases hc : p c = true
    · rw [List.dropWhile_cons_of_pos hc] at h
      exact ih h
    · rw [List.dropWhile_cons_of_neg hc] at h
      rw [List.head?_cons] at h
      cases h
      exact Bool.eq_false_iff.mpr hc

theorem dropWhile_eq_self_of_head {p : Char → Bool} {l : List Char}
    (h : ∀ a, l.head? = some a → p a = false) : l.dropWhile p = l := by
  cases l with
  | nil => rfl
  | cons c cs =>
    have hc : p c = false := h c rfl
    rw [List.dropWhile_cons_of_neg (by simp [hc])]

theorem getLast?_of_suffix {l1 l2 : List Char} (h : l1 <:+ l2) (hne : l1 ≠ []) :
    l2.getLast? = l1.getLast? := by
  obtain ⟨t, rfl⟩ := h
  rw [List.getLast?_append]
  cases hl : l1.getLast? with
  | none =>
    exact absurd (List.getLast?_eq_none_iff.mp hl) hne
  | some a => rfl

theorem stripHyphens_sublist (l : List Char) : (stripHyphens l).Sublist l := by
  rw [stripHyphens]
  have h1 : l.dropWhile (fun c => c = '-') <:+ l := List.dropWhile_suffix _
  have h2 : (l.dropWhile (fun c => c = '-')).reverse.dropWhile (fun c => c = '-')
      <:+ (l.dropWhile (fun c => c = '-')).reverse := List.dropWhile_suffix _
  have h3 : ((l.dropWhile (fun c => c = '-')).reverse.dropWhile
      (fun c => c = '-')).reverse <+: l.dropWhile (fun c => c = '-') := by
    rw [← List.reverse_suffix]
    simpa using h2
  exact h3.sublist.trans h1.sublist

theorem stripHyphens_head? {l : List Char} {a : Char}
    (h : (stripHyphens l).head? = some a) : a ≠ '-' := by
  rw [stripHyphens, List.head?_reverse] at h
  have hne : (l.dropWhile (fun c => c = '-')).reverse.dropWhile (fun c => c = '-') ≠ [] := by
    intro hcon
    rw [hcon] at h
    simp at h
  have hsuf : (l.dropWhile (fun c => c = '-')).reverse.dropWhile (fun c => c = '-')
      <:+ (l.dropWhile (fun c => c = '-')).reverse := List.dropWhile_suffix _
  have hlast := getLast?_of_suffix hsuf hne
  rw [← hlast, List.getLast?_reverse] at h
  have := dropWhile_head_false h
  simpa using this

theorem stripHyphens_getLast? {l : List Char} {a : Char}
    (h : (stripHyphens l).getLast? = some a) : a ≠ '-' := by
  rw [stripHyphens, List.getLast?_reverse] at h
  have := dropWhile_head_false h
  simpa using this

theorem stripHyphens_chain {l : List Char} (h : l.Chain' noDoubleHyphen) :
    (stripHyphens l).Chain' noDoubleHyphen := by
  rw [stripHyphens]
  have h1 : (l.dropWhile (fun c => c = '-')).Chain' noDoubleHyphen :=
    h.suffix (List.dropWhile_suffix _)
  have h2 : ((l.dropWhile (fun c => c = '-')).reverse).Chain' noDoubleHyphen := by
    rw [List.chain'_reverse]
    exact h1.imp (fun a b hab => fun hba => hab ⟨hba.2, hba.1⟩)
  have h3 := h2.suffix (List.dropWhile_suffix (fun c => c = '-'))
  rw [List.chain'_reverse]
  exact h3.imp (fun a b hab => fun hba => hab ⟨hba.2, hba.1⟩)

theorem stripHyphens_eq_self {l : List Char}
    (hhead : ∀ a, l.head? = some a → a ≠ '-')
    (hlast : ∀ a, l.getLast? = some a → a ≠ '-') :
    stripHyphens l = l := by
  have h1 : l.dropWhile (fun c => c = '-') = l :=
    dropWhile_eq_self_of_head (fun a ha => by simpa using hhead a ha)
  have h2 : l.reverse.dropWhile (fun c => c = '-') = l.reverse :=
    dropWhile_eq_self_of_head (fun a ha => by
      rw [List.head?_reverse] at ha
      simpa using hlast a ha)
  rw [stripHyphens, h1, h2, List.reverse_reverse]

theorem slugify_invariant (s : String) :
    (∀ c ∈ (slugify (some s)).data, keepChar c = true) ∧
    (slugify (some s)).data.Chain' noDoubleHyphen ∧
    (∀ a, (slugify (some s)).data.head? = some a → a ≠ '-') ∧
    (∀ a, (slugify (some s)).data.getLast? = some a → a ≠ '-') := by
  by_cases hs : s = ""
  · subst hs
    refine ⟨?_, ?_, ?_, ?_⟩ <;> simp [slugify]
  · have hdata : (slugify (some s)).data =
        stripHyphens (collapseHyphens
          (List.filter keepChar (squashSpaces (s.data.map lowerChar)))) := by
      rw [slugify]
      rw [if_neg hs]
    refine ⟨?_, ?_, ?_, ?_⟩
    · intro c hc
      rw [hdata] at hc
      have hc2 := (stripHyphens_sublist _).subset hc
      have hc3 := (collapseHyphens_sublist _).subset hc2
      exact List.of_mem_filter hc3
    · rw [hdata]
      exact stripHyphens_chain (collapseHyphens_chain _)
    · intro a ha
      rw [hdata] at ha
      exact stripHyphens_head? ha
    · intro a ha
      rw [hdata] at ha
      exact stripHyphens_getLast? ha

theorem slugify_fixpoint {s : String}
    (hkeep : ∀ c ∈ s.data, keepChar c = true)
    (hchain : s.data.Chain' noDoubleHyphen)
    (hhead : ∀ a, s.data.head? = some a → a ≠ '-')
    (hlast : ∀ a, s.data.getLast? = some a → a ≠ '-') :
    slugify (some s) = s := by
  by_cases hs : s = ""
  · subst hs; rfl
  · rw [slugify]
    rw [if_neg hs]
    have hmap : s.data.map lowerChar = s.data := by
      have h1 : s.data.map lowerChar = s.data.map id :=
        List.map_congr_left (fun a ha => lowerChar_keep (hkeep a ha))
      rw [h1, List.map_id]
    rw [hmap, squashSpaces_eq_self (fun c hc => keep_not_space (hkeep c hc)),
      List.filter_eq_self.mpr hkeep, collapseHyphens_eq_self hchain,
      stripHyphens_eq_self hhead hlast]

/-- C9: the normalizer is idempotent: `slugify (slugify x) = slugify x` for
every input, i.e. normalized output is a fixed point of `slugify`. -/
theorem slugify_idempotent (x : Option String) :
    slugify (some (slugify x)) = slugify x := by
  cases x with
  | none =>
    simp [slugify]
  | some s =>
    obtain ⟨hk, hc, hh, hl⟩ := slugify_invariant s
    exact slugify_fixpoint hk hc hh hl

/-- C7: the normalizer is total over all inputs, `None` and `""` map to
`""`, the output consists only of characters in `[a-z0-9-]` with no
leading, trailing or repeated hyphens, and
`slugify "  Ken Griffey   Jr.  " = "ken-griffey-jr"`. -/
theorem slugify_spec :
    slugify none = "" ∧
    slugify (some "") = "" ∧
    slugify (some "  Ken Griffey   Jr.  ") = "ken-griffey-jr" ∧
    (∀ s : String, ∀ c ∈ (slugify (some s)).data,
      (97 ≤ c.toNat ∧ c.toNat ≤ 122) ∨ (48 ≤ c.toNat ∧ c.toNat ≤ 57) ∨ c = '-') ∧
    (∀ s : String, ∀ a, (slugify (some s)).data.head? = some a → a ≠ '-') ∧
    (∀ s : String, ∀ a, (slugify (some s)).data.getLast? = some a → a ≠ '-') ∧
    (∀ s : String, (slugify (some s)).data.Chain' noDoubleHyphen) := by
  refine ⟨rfl, by simp [slugify], by decide, ?_, ?_, ?_, ?_⟩
  · intro s c hc
    have hk := (slugify_invariant s).1 c hc
    rw [keepChar] at hk
    simpa [or_assoc] using hk
  · intro s
    exact (slugify_invariant s).2.2.1
  · intro s
    exact (slugify_invariant s).2.2.2
  · intro s
    exact (slugify_invariant s).2.1

/-- Witness for C7 at a concrete input: the character `k` of the normalized
`"Ken"` lies in the class `[a-z0-9-]`. -/
theorem slugify_spec_witness :
    ('k' ∈ (slugify (some "Ken")).data) ∧
    ((97 ≤ 'k'.toNat ∧ 'k'.toNat ≤ 122) ∨ (48 ≤ 'k'.toNat ∧ 'k'.toNat ≤ 57) ∨ 'k' = '-') :=
  ⟨by decide, slugify_spec.2.2.2.1 "Ken" 'k' (by decide)⟩

/-! ### Lemmas about the estimator and the verdict calculator -/

theorem calculate_sanity_average_eq_none (l : List ℚ) :
    calculate_sanity_average l = none ↔ l = [] := by
  constructor
  · intro h
    by_contra hne
    rw [calculate_sanity_average, if_neg hne] at h
    by_cases h3 : l.length < 3
    · rw [if_pos h3] at h
      simp at h
    · rw [if_neg h3] at h
      simp at h
  · intro h
    subst h
    rfl

/-- C1: the sanity average is absent on no prices, the plain mean on one or
two prices, and on three or more prices the mean of the ascending-sorted
list with exactly one element dropped at each end (one instance per
extreme, ties included — see `[10, 10, 30]`), with the spec's concrete
examples. -/
theorem calculate_sanity_average_spec :
    calculate_sanity_average [] = none ∧
    (∀ l : List ℚ, l ≠ [] → l.length < 3 →
      calculate_sanity_average l = some (l.sum / l.length)) ∧
    (∀ l : List ℚ, 3 ≤ l.length → ∃ s : List ℚ,
      s.Sorted (· ≤ ·) ∧ s.Perm l ∧
      calculate_sanity_average l =
        some (((s.drop 1).dropLast).sum / ((s.drop 1).dropLast).length)) ∧
    calculate_sanity_average [10] = some 10 ∧
    calculate_sanity_average [10, 20] = some 15 ∧
    calculate_sanity_average [10, 20, 30] = some 20 ∧
    calculate_sanity_average [10, 10, 30] = some 10 ∧
    calculate_sanity_average [50, 100, 150, 200, 1000] = some 150 := by
  refine ⟨rfl, ?_, ?_, ?_, ?_, ?_, ?_, ?_⟩
  · intro l h1 h2
    rw [calculate_sanity_average, if_neg h1, if_pos h2]
  · intro l h3
    refine ⟨l.insertionSort (· ≤ ·), List.sorted_insertionSort _ l,
      List.perm_insertionSort _ l, ?_⟩
    have h1 : l ≠ [] := by
      intro hc
      rw [hc] at h3
      simp at h3
    rw [calculate_sanity_average, if_neg h1, if_neg (by omega)]
  · norm_num [calculate_sanity_average, List.cons_ne_nil]
  · norm_num [calculate_sanity_average, List.cons_ne_nil]
  · norm_num [calculate_sanity_average, List.insertionSort, List.orderedInsert,
      List.dropLast, List.cons_ne_nil]
  · norm_num [calculate_sanity_average, List.insertionSort, List.orderedInsert,
      List.dropLast, List.cons_ne_nil]
  · norm_num [calculate_sanity_average, List.insertionSort, List.orderedInsert,
      List.dropLast, List.cons_ne_nil]

/-- Witness for C1: the 1-or-2-price branch evaluated at `[10, 20]`. -/
theorem calculate_sanity_average_witness :
    ([10, 20] : List ℚ) ≠ [] ∧ ([10, 20] : List ℚ).length < 3 ∧
    calculate_sanity_average [10, 20] =
      some (([10, 20] : List ℚ).sum / (([10, 20] : List ℚ).length : ℚ)) :=
  ⟨by simp, by simp, calculate_sanity_average_spec.2.1 [10, 20] (by simp) (by simp)⟩

/-- C3: the verdict calculator returns an absent profit/loss and the
insufficient-data label on an absent estimate, and otherwise
`profit_loss = estimate - asking` with a favorable verdict carrying the
profit when positive, an overpriced verdict carrying the absolute loss
when negative, and the fair-price verdict at zero; with the spec's
concrete examples. -/
theorem calculate_profit_loss_spec :
    (∀ p : ℚ, calculate_profit_loss p none = (none, Verdict.insufficientData)) ∧
    (∀ p ev : ℚ, 0 < ev - p →
      calculate_profit_loss p (some ev) = (some (ev - p), Verdict.goodDeal (ev - p))) ∧
    (∀ p ev : ℚ, ev - p < 0 →
      calculate_profit_loss p (some ev) = (some (ev - p), Verdict.overpriced |ev - p|)) ∧
    (∀ p ev : ℚ, ev - p = 0 →
      calculate_profit_loss p (some ev) = (some (ev - p), Verdict.fairPrice)) ∧
    calculate_profit_loss 100 (some 150) = (some 50, Verdict.goodDeal 50) ∧
    calculate_profit_loss 200 (some 150) = (some (-50), Verdict.overpriced 50) ∧
    calculate_profit_loss 100 (some 100) = (some 0, Verdict.fairPrice) := by
  refine ⟨fun p => rfl, ?_, ?_, ?_, ?_, ?_, ?_⟩
  · intro p ev h
    simp only [calculate_profit_loss]
    rw [if_pos h]
  · intro p ev h
    simp only [calculate_profit_loss]
    rw [if_neg (by linarith), if_pos h]
  · intro p ev h
    simp only [calculate_profit_loss]
    rw [if_neg (by simp [h]), if_neg (by simp [h]), h]
  · norm_num [calculate_profit_loss]
  · norm_num [calculate_profit_loss]
  · norm_num [calculate_profit_loss]

/-- Witness for C3: the favorable branch at asking 100, estimate 150. -/
theorem calculate_profit_loss_witness :
    (0 : ℚ) < 150 - 100 ∧
    calculate_profit_loss 100 (some 150) =
      (some ((150 : ℚ) - 100), Verdict.goodDeal ((150 : ℚ) - 100)) :=
  ⟨by norm_num, calculate_profit_loss_spec.2.1 100 150 (by norm_num)⟩

/-! ### Lemmas about the orchestrator -/

theorem get_estimated_value_of_tier1 {db : Store} {p b v : String}
    {year : Option Int} {g : Option ℚ} {gr : Option String}
    (h : query_tier1_exact_match db p b v g gr 10 ≠ []) :
    get_estimated_value db p b v year g gr =
      ⟨calculate_sanity_average
        ((query_tier1_exact_match db p b v g gr 10).map (fun s => s.price)),
       "exact", (query_tier1_exact_match db p b v g gr 10).length,
       query_tier1_exact_match db p b v g gr 10⟩ := by
  simp only [get_estimated_value]
  rw [if_pos h]

theorem get_estimated_value_of_tier2 {db : Store} {p b v : String}
    {year : Option Int} {g : Option ℚ} {gr : Option String}
    (h1 : query_tier1_exact_match db p b v g gr 10 = [])
    (h2 : query_tier2_fuzzy_match db p b year 10 ≠ []) :
    get_estimated_value db p b v year g gr =
      ⟨calculate_sanity_average
        ((query_tier2_fuzzy_match db p b year 10).map (fun s => s.price)),
       "fuzzy", (query_tier2_fuzzy_match db p b year 10).length,
       query_tier2_fuzzy_match db p b year 10⟩ := by
  simp only [get_estimated_value]
  rw [if_neg (by simp [h1]), if_pos h2]

theorem get_estimated_value_of_none {db : Store} {p b v : String}
    {year : Option Int} {g : Option ℚ} {gr : Option String}
    (h1 : query_tier1_exact_match db p b v g gr 10 = [])
    (h2 : query_tier2_fuzzy_match db p b year 10 = []) :
    get_estimated_value db p b v year g gr = ⟨none, "none", 0, []⟩ := by
  simp only [get_estimated_value]
  rw [if_neg (by simp [h1]), if_neg (by simp [h2]), h2]
  rfl

/-- C2: Tier 2 supplies the result only when Tier 1 is empty; the tier tag
is `exact` iff Tier 1 produced a record, `fuzzy` iff Tier 1 was empty and
Tier 2 produced one, `none` iff both were empty; a non-empty Tier 1 result
is used as-is (never merged with or replaced by Tier 2). -/
theorem match_tier_spec (db : Store) (p b v : String) (year : Option Int)
    (g : Option ℚ) (gr : Option String) :
    ((get_estimated_value db p b v year g gr).match_tier = "exact" ↔
      query_tier1_exact_match db p b v g gr 10 ≠ []) ∧
    ((get_estimated_value db p b v year g gr).match_tier = "fuzzy" ↔
      query_tier1_exact_match db p b v g gr 10 = [] ∧
      query_tier2_fuzzy_match db p b year 10 ≠ []) ∧
    ((get_estimated_value db p b v year g gr).match_tier = "none" ↔
      query_tier1_exact_match db p b v g gr 10 = [] ∧
      query_tier2_fuzzy_match db p b year 10 = []) ∧
    (query_tier1_exact_match db p b v g gr 10 ≠ [] →
      (get_estimated_value db p b v year g gr).sales_data =
        query_tier1_exact_match db p b v g gr 10) ∧
    (query_tier1_exact_match db p b v g gr 10 = [] →
      (get_estimated_value db p b v year g gr).sales_data =
        query_tier2_fuzzy_match db p b year 10) := by
  by_cases h1 : query_tier1_exact_match db p b v g gr 10 = []
  · by_cases h2 : query_tier2_fuzzy_match db p b year 10 = []
    · rw [get_estimated_value_of_none h1 h2]
      refine ⟨?_, ?_, ?_, ?_, ?_⟩ <;> simp [h1, h2]
    · rw [get_estimated_value_of_tier2 h1 h2]
      refine ⟨?_, ?_, ?_, ?_, ?_⟩ <;> simp [h1, h2]
  · rw [get_estimated_value_of_tier1 h1]
    refine ⟨?_, ?_, ?_, ?_, ?_⟩ <;> simp [h1]

/-- Witness for C2: a store with one exact-tier record; the matcher uses
the Tier 1 result set. -/
theorem match_tier_spec_witness :
    query_tier1_exact_match ⟨[⟨1, "p", "b", "v", 2020, 9, "psa", 100, 5⟩], false, false⟩
      "p" "b" "v" none none 10 ≠ [] ∧
    (get_estimated_value ⟨[⟨1, "p", "b", "v", 2020, 9, "psa", 100, 5⟩], false, false⟩
      "p" "b" "v" none none none).sales_data =
      query_tier1_exact_match ⟨[⟨1, "p", "b", "v", 2020, 9, "psa", 100, 5⟩], false, false⟩
        "p" "b" "v" none none 10 :=
  ⟨by decide,
   (match_tier_spec ⟨[⟨1, "p", "b", "v", 2020, 9, "psa", 100, 5⟩], false, false⟩
     "p" "b" "v" none none none).2.2.2.1 (by decide)⟩

/-- C10: in every `PricingResult` the absence of the estimate, a zero sales
count and the `none` tier coincide; the sales count is the length of
`sales_data`, and the estimate is the sanity average of exactly the prices
of `sales_data`. -/
theorem pricing_result_invariants (db : Store) (p b v : String) (year : Option Int)
    (g : Option ℚ) (gr : Option String) :
    ((get_estimated_value db p b v year g gr).estimated_value = none ↔
      (get_estimated_value db p b v year g gr).sales_count = 0) ∧
    ((get_estimated_value db p b v year g gr).sales_count = 0 ↔
      (get_estimated_value db p b v year g gr).match_tier = "none") ∧
    (get_estimated_value db p b v year g gr).sales_count =
      (get_estimated_value db p b v year g gr).sales_data.length ∧
    (get_estimated_value db p b v year g gr).estimated_value =
      calculate_sanity_average
        ((get_estimated_value db p b v year g gr).sales_data.map (fun s => s.price)) := by
  by_cases h1 : query_tier1_exact_match db p b v g gr 10 = []
  · by_cases h2 : query_tier2_fuzzy_match db p b year 10 = []
    · rw [get_estimated_value_of_none h1 h2]
      simp [calculate_sanity_average]
    · rw [get_estimated_value_of_tier2 h1 h2]
      refine ⟨?_, ?_, rfl, rfl⟩ <;>
        simp [calculate_sanity_average_eq_none, List.map_eq_nil_iff, h2,
          List.length_eq_zero]
  · rw [get_estimated_value_of_tier1 h1]
    refine ⟨?_, ?_, rfl, rfl⟩ <;>
      simp [calculate_sanity_average_eq_none, List.map_eq_nil_iff, h1,
        List.length_eq_zero]

/-! ### Lemmas about the two tier queries -/

theorem tier1_where_iff (p b v : String) (g : Option ℚ) (gr : Option String)
    (r : SalesHistory) :
    tier1_where p b v g gr r = true ↔ tier1_claim_pred p b v g gr r := by
  rw [tier1_where.eq_def, tier1_claim_pred]
  cases g with
  | none =>
    cases gr with
    | none => simp [and_assoc]
    | some s =>
      by_cases hs : s = ""
      · subst hs
        simp [and_assoc]
      · simp [and_assoc, hs]
  | some gv =>
    cases gr with
    | none => simp [and_assoc]
    | some s =>
      by_cases hs : s = ""
      · subst hs
        simp [and_assoc]
      · simp [and_assoc, hs]

theorem tier2_where_iff (p b : String) (year : Option Int) (r : SalesHistory) :
    tier2_where p b year r = true ↔ tier2_claim_pred p b year r := by
  rw [tier2_where.eq_def, tier2_claim_pred]
  cases year with
  | none =>
    simp [and_assoc]
    tauto
  | some y =>
    simp [and_assoc]
    tauto

/-- C5 is false as stated: the grader filter is skipped for a supplied
*empty-string* grading authority (the source tests `if grader:` rather
than `is not None`), so the store's single record with grader
`"psa" ≠ ""` is returned although a grading authority was supplied. -/
theorem tier1_grader_cex :
    query_tier1_exact_match ⟨[⟨1, "p", "b", "v", 2020, 9, "psa", 100, 5⟩], false, false⟩
      "p" "b" "v" none (some "") 10 =
      [⟨1, "p", "b", "v", 2020, 9, "psa", 100, 5⟩] ∧
    (⟨1, "p", "b", "v", 2020, 9, "psa", 100, 5⟩ : SalesHistory).grader ≠ "" :=
  ⟨by decide, by decide⟩

/-- C5 (amended: an empty-string grading authority counts as not
supplied): when the store is available the Tier-1 result set consists
exactly of the records matching `tier1_claim_pred` (all of them whenever
at most 10 match), ordered most-recent-first and capped at 10; no match
yields `[]`, not an error. -/
theorem tier1_query_spec (db : Store) (p b v : String) (g : Option ℚ)
    (gr : Option String) (hup : db.tier1Fails = false) :
    (∀ r ∈ query_tier1_exact_match db p b v g gr 10,
      r ∈ db.records ∧ tier1_claim_pred p b v g gr r) ∧
    ((db.records.filter (tier1_where p b v g gr)).length ≤ 10 →
      ∀ r ∈ db.records, tier1_claim_pred p b v g gr r →
        r ∈ query_tier1_exact_match db p b v g gr 10) ∧
    (query_tier1_exact_match db p b v g gr 10).Sorted recency_ge ∧
    (query_tier1_exact_match db p b v g gr 10).length ≤ 10 ∧
    ((∀ r ∈ db.records, ¬ tier1_claim_pred p b v g gr r) →
      query_tier1_exact_match db p b v g gr 10 = []) := by
  have hq : query_tier1_exact_match db p b v g gr 10 =
      List.take 10 (List.insertionSort recency_ge
        (db.records.filter (tier1_where p b v g gr))) := by
    rw [query_tier1_exact_match, hup]
    rfl
  refine ⟨?_, ?_, ?_, ?_, ?_⟩
  · intro r hr
    rw [hq] at hr
    have h1 := List.mem_of_mem_take hr
    rw [List.mem_insertionSort, List.mem_filter] at h1
    exact ⟨h1.1, (tier1_where_iff p b v g gr r).mp h1.2⟩
  · intro hlen r hr hpred
    rw [hq, List.take_of_length_le (by rw [List.length_insertionSort]; exact hlen)]
    rw [List.mem_insertionSort, List.mem_filter]
    exact ⟨hr, (tier1_where_iff p b v g gr r).mpr hpred⟩
  · rw [hq]
    exact List.Pairwise.sublist (List.take_sublist _ _)
      (List.sorted_insertionSort recency_ge _)
  · rw [hq]
    exact List.length_take_le _ _
  · intro hnone
    rw [hq]
    have : db.records.filter (tier1_where p b v g gr) = [] := by
      rw [List.filter_eq_nil_iff]
      intro a ha
      rw [tier1_where_iff]
      exact hnone a ha
    rw [this]
    rfl

/-- Witness for C5 (amended): the single exactly-matching record is
returned by a Tier-1 query that supplies no grade and no grader. -/
theorem tier1_query_spec_witness :
    (⟨[⟨1, "p", "b", "v", 2020, 9, "psa", 100, 5⟩], false, false⟩ : Store).tier1Fails
      = false ∧
    (⟨1, "p", "b", "v", 2020, 9, "psa", 100, 5⟩ : SalesHistory) ∈
      query_tier1_exact_match ⟨[⟨1, "p", "b", "v", 2020, 9, "psa", 100, 5⟩], false, false⟩
        "p" "b" "v" none none 10 :=
  ⟨rfl,
   (tier1_query_spec ⟨[⟨1, "p", "b", "v", 2020, 9, "psa", 100, 5⟩], false, false⟩
       "p" "b" "v" none none rfl).2.1
     (by decide) _ (by decide) (by simp [tier1_claim_pred])⟩

/-- C6: when the store is available the Tier-2 result set consists exactly
of the records matching `tier2_claim_pred` — brand equality, player
trigram similarity strictly above the 0.3 threshold, year equality only
when supplied, and no grade or grader filter (all of them whenever at
most 10 match) — ordered by descending similarity with recency as
tie-break, and capped at the same limit 10. -/
theorem tier2_query_spec (db : Store) (p b : String) (year : Option Int)
    (hup : db.tier2Fails = false) :
    (∀ r ∈ query_tier2_fuzzy_match db p b year 10,
      r ∈ db.records ∧ tier2_claim_pred p b year r) ∧
    ((db.records.filter (tier2_where p b year)).length ≤ 10 →
      ∀ r ∈ db.records, tier2_claim_pred p b year r →
        r ∈ query_tier2_fuzzy_match db p b year 10) ∧
    (query_tier2_fuzzy_match db p b year 10).Sorted (tier2_order p) ∧
    (query_tier2_fuzzy_match db p b year 10).length ≤ 10 := by
  have hq : query_tier2_fuzzy_match db p b year 10 =
      List.take 10 (List.insertionSort (tier2_order p)
        (db.records.filter (tier2_where p b year))) := by
    rw [query_tier2_fuzzy_match, hup]
    rfl
  refine ⟨?_, ?_, ?_, ?_⟩
  · intro r hr
    rw [hq] at hr
    have h1 := List.mem_of_mem_take hr
    rw [List.mem_insertionSort, List.mem_filter] at h1
    exact ⟨h1.1, (tier2_where_iff p b year r).mp h1.2⟩
  · intro hlen r hr hpred
    rw [hq, List.take_of_length_le (by rw [List.length_insertionSort]; exact hlen)]
    rw [List.mem_insertionSort, List.mem_filter]
    exact ⟨hr, (tier2_where_iff p b year r).mpr hpred⟩
  · rw [hq]
    exact List.Pairwise.sublist (List.take_sublist _ _)
      (List.sorted_insertionSort (tier2_order p) _)
  · rw [hq]
    exact List.length_take_le _ _

theorem similarity_self {s : String} (h : trigramsOf s ≠ ∅) : similarity s s = 1 := by
  have hc : (trigramsOf s).card ≠ 0 := by
    simpa [Finset.card_eq_zero] using h
  rw [similarity]
  rw [Finset.union_self, Finset.inter_self]
  rw [if_neg hc]
  rw [div_self (by exact_mod_cast hc)]

/-- Witness for C6: a record whose player identifier equals the query's
(similarity 1 > 0.3) and whose brand matches is returned by Tier 2. -/
theorem tier2_query_spec_witness :
    (⟨[⟨1, "ab", "b", "v", 2020, 9, "psa", 100, 5⟩], false, false⟩ : Store).tier2Fails
      = false ∧
    (⟨1, "ab", "b", "v", 2020, 9, "psa", 100, 5⟩ : SalesHistory) ∈
      query_tier2_fuzzy_match ⟨[⟨1, "ab", "b", "v", 2020, 9, "psa", 100, 5⟩], false, false⟩
        "ab" "b" none 10 := by
  have hsim : similarity "ab" "ab" = 1 := similarity_self (by decide)
  have hw : tier2_where "ab" "b" none (⟨1, "ab", "b", "v", 2020, 9, "psa", 100, 5⟩ :
      SalesHistory) = true := by
    rw [tier2_where_iff]
    refine ⟨rfl, ?_, by simp⟩
    rw [hsim, SIMILARITY_THRESHOLD]
    norm_num
  refine ⟨rfl, ?_⟩
  refine (tier2_query_spec ⟨[⟨1, "ab", "b", "v", 2020, 9, "psa", 100, 5⟩], false, false⟩
      "ab" "b" none rfl).2.1 ?_ _ (by decide) ?_
  · simp [hw]
  · rw [← tier2_where_iff]
    exact hw

/-- C8: a store failure inside either tier is absorbed as an empty result
set for that tier: with Tier 1 failing the pipeline continues to the
Tier-2 result, and with both tiers failing it concludes tier `none` with
no records — the matcher is a total function and raises no exception for
a no-match condition or a per-tier store failure. -/
theorem failure_spec (db : Store) (p b v : String) (year : Option Int)
    (g : Option ℚ) (gr : Option String) :
    (db.tier1Fails = true → query_tier1_exact_match db p b v g gr 10 = []) ∧
    (db.tier2Fails = true → query_tier2_fuzzy_match db p b year 10 = []) ∧
    (db.tier1Fails = true →
      (get_estimated_value db p b v year g gr).sales_data =
        query_tier2_fuzzy_match db p b year 10) ∧
    (db.tier1Fails = true ∧ db.tier2Fails = true →
      get_estimated_value db p b v year g gr = ⟨none, "none", 0, []⟩) := by
  have ht1 : db.tier1Fails = true → query_tier1_exact_match db p b v g gr 10 = [] := by
    intro h
    rw [query_tier1_exact_match, h]
    rfl
  have ht2 : db.tier2Fails = true → query_tier2_fuzzy_match db p b year 10 = [] := by
    intro h
    rw [query_tier2_fuzzy_match, h]
    rfl
  refine ⟨ht1, ht2, ?_, ?_⟩
  · intro h
    by_cases h2 : query_tier2_fuzzy_match db p b year 10 = []
    · rw [get_estimated_value_of_none (ht1 h) h2, h2]
    · rw [get_estimated_value_of_tier2 (ht1 h) h2]
  · rintro ⟨h1, h2⟩
    exact get_estimated_value_of_none (ht1 h1) (ht2 h2)

/-- Witness for C8: with both tiers unavailable the orchestrator returns
the empty `none`-tier result. -/
theorem failure_spec_witness :
    ((⟨[⟨1, "p", "b", "v", 2020, 9, "psa", 100, 5⟩], true, true⟩ : Store).tier1Fails = true ∧
      (⟨[⟨1, "p", "b", "v", 2020, 9, "psa", 100, 5⟩], true, true⟩ : Store).tier2Fails = true) ∧
    get_estimated_value ⟨[⟨1, "p", "b", "v", 2020, 9, "psa", 100, 5⟩], true, true⟩
      "p" "b" "v" none none none = ⟨none, "none", 0, []⟩ :=
  ⟨⟨rfl, rfl⟩,
   (failure_spec ⟨[⟨1, "p", "b", "v", 2020, 9, "psa", 100, 5⟩], true, true⟩
     "p" "b" "v" none none none).2.2.2 ⟨rfl, rfl⟩⟩

/-! ### The caching analyze endpoint -/

/-- C4: cache entries carry only the parsed data, estimated value, match
tier and sales count — in particular the entry written on a miss does not
depend on the request's asking price — profit/loss and verdict are
recomputed from the request's asking price on hit and miss alike, and a
hit returns the cached valuation fields unchanged. -/
theorem analyze_cache_spec (parsed : ParsedCardData) (db : Store) (price : ℚ)
    (entry : CacheEntry) :
    ((analyze_listing (some entry) parsed db price).1.estimated_value =
      entry.estimated_value) ∧
    ((analyze_listing (some entry) parsed db price).1.match_tier = entry.match_tier) ∧
    ((analyze_listing (some entry) parsed db price).1.sales_count = entry.sales_count) ∧
    ((analyze_listing (some entry) parsed db price).1.parsed_data = entry.parsed_data) ∧
    ((analyze_listing (some entry) parsed db price).1.profit_loss =
      (calculate_profit_loss price entry.estimated_value).1) ∧
    ((analyze_listing (some entry) parsed db price).1.verdict =
      (calculate_profit_loss price entry.estimated_value).2) ∧
    ((analyze_listing (some entry) parsed db price).2 = some entry) ∧
    (∀ p1 p2 : ℚ, (analyze_listing none parsed db p1).2 =
      (analyze_listing none parsed db p2).2) ∧
    ((analyze_listing none parsed db price).1.verdict =
      (calculate_profit_loss price
        (analyze_listing none parsed db price).1.estimated_value).2) :=
  ⟨rfl, rfl, rfl, rfl, rfl, rfl, rfl, fun _ _ => rfl, rfl⟩

end GmmTools
